import Mathlib

set_option linter.unusedVariables false

/-!
Verification of the batch migration / synchronization pipeline of the
MongoDB-to-HCD repository, against its design specification.

The embedding below translates the relevant parts of
`migration/mongo_to_hcd_migration.py` and `migration/verify_migration.py`
into Lean.  External stores (the MongoDB source and the HCD target) are
modelled as oracles passed to each function: the source read is an oracle
from a (skip, limit) window to either a list of documents or a raised
exception, and the target write behaviour is an oracle telling whether the
bulk insert of a batch succeeds and which individual documents insert
successfully.  Durations are modelled as exact rationals.
-/

namespace Migration

/-- A document is a schema-flexible mapping from field names to values,
modelled as an association list (Python dict with unique keys).  Values are
modelled as strings; only equality of values matters to the pipeline. -/
abbrev Doc := List (String × String)

/-- Python `d.get(k)`: the value stored under key `k`, or `None` when the
key is absent. -/
def dget : Doc → String → Option String
  | [], _ => none
  | (k2, v) :: rest, k => if k2 == k then some v else dget rest k

/-- Python `del d['_id']` (guarded by `if '_id' in d`): removes the
store-internal identity field.  Keys are unique in a dict, so removing
every pair with key `_id` matches the source. -/
def eraseId (d : Doc) : Doc :=
  d.filter (fun kv => kv.1 != "_id")

/-- Outcome of the call `list(self.mongodb_db.subscribers.find().skip(skip).limit(limit))`
inside `read_mongodb_batch` (lines 164-181): either the store returns a
list of documents, or the call raises with some message. -/
inductive ReadOutcome where
  | ok (docs : List Doc)
  | fail (msg : String)
deriving DecidableEq

/-- `read_mongodb_batch(self, skip, limit)` (lines 153-181): read one
window from the source.  On success the MongoDB-specific `_id` field is
removed from every document before the batch is returned; on any exception
the handler at lines 179-181 logs and returns the empty list. -/
def read_mongodb_batch (store : Nat → Nat → ReadOutcome) (skip limit : Nat) : List Doc :=
  match store skip limit with
  | ReadOutcome.ok docs => docs.map eraseId
  | ReadOutcome.fail _ => []

/-- `write_hcd_batch(self, batch, batch_number)` (lines 183-237).
 `bulkOk` models whether the single `insert_many` call at line 203
succeeds; on success every document of the batch is inserted and the
returned count is `len(batch)`.  When `insert_many` raises, the fallback
loop at lines 217-227 calls `insert_one` on each document in original
order, counting the successes; `docOk` models which individual documents
the target accepts.  The batch number is used only for logging. -/
def write_hcd_batch (bulkOk : Bool) (docOk : Doc → Bool)
    (batch : List Doc) (batch_number : Nat) : Nat :=
  if bulkOk then batch.length
  else batch.countP docOk

/-- The body of `_process_single_batch` (lines 239-274) with the writer
abstracted as a function from the read batch to a migrated count: read the
window, return `(0, 0)` when the batch is empty (lines 260-263), otherwise
write it and return `(migrated_count, len(batch) - migrated_count)`
(lines 266-269). -/
def process_batch_with_writer (store : Nat → Nat → ReadOutcome)
    (w : List Doc → Nat) (skip current_batch_size : Nat) : Nat × Nat :=
  let batch := read_mongodb_batch store skip current_batch_size
  if batch.isEmpty then (0, 0)
  else (w batch, batch.length - w batch)

/-- `_process_single_batch(self, batch_num, skip, current_batch_size)`
(lines 239-274): the per-worker unit of work, instantiating the writer
with `write_hcd_batch`.  The batch number is used only for logging.
Nothing in the body raises past `read_mongodb_batch` and `write_hcd_batch`
(both catch all exceptions internally), so the handler at lines 271-274
returning `(0, current_batch_size)` is unreachable. -/
def process_single_batch (store : Nat → Nat → ReadOutcome) (bulkOk : Bool)
    (docOk : Doc → Bool) (batch_num skip current_batch_size : Nat) : Nat × Nat :=
  process_batch_with_writer store
    (fun batch => write_hcd_batch bulkOk docOk batch batch_num)
    skip current_batch_size

/-- `total_batches = (max_docs + self.batch_size - 1) // self.batch_size`
(line 296). -/
def total_batches (max_docs batch_size : Nat) : Nat :=
  (max_docs + batch_size - 1) / batch_size

/-- The batch-task list built by the loop at lines 305-316 of
`migrate_data`: for `batch_num` in `1..total_batches`,
`skip = (batch_num - 1) * batch_size`; the loop breaks at the first
batch whose remaining document count `max_docs - skip` is not positive
(hence the `takeWhile`), and otherwise appends
`(batch_num, skip, min(batch_size, max_docs - skip))`. -/
def batch_tasks (max_docs batch_size : Nat) : List (Nat × Nat × Nat) :=
  ((List.range (total_batches max_docs batch_size)).takeWhile
      (fun i => decide (i * batch_size < max_docs))).map
    (fun i => (i + 1, i * batch_size, min batch_size (max_docs - i * batch_size)))

/-- The window sizes of the scheduled batches, in schedule order. -/
def task_sizes (max_docs batch_size : Nat) : List Nat :=
  (batch_tasks max_docs batch_size).map (fun t => t.2.2)

/-- The skip offsets of the scheduled batches, in schedule order. -/
def task_skips (max_docs batch_size : Nat) : List Nat :=
  (batch_tasks max_docs batch_size).map (fun t => t.2.1)

/-- The accumulation loop over completed futures at lines 329-336 of
`migrate_data`: starting from `total_migrated = 0` and `total_errors = 0`,
each completed batch result adds its migrated count and its error count to
the running sums, in completion order. -/
def aggregate_results (results : List (Nat × Nat)) : Nat × Nat :=
  results.foldl (fun totals r => (totals.1 + r.1, totals.2 + r.2)) (0, 0)

/-- The throughput report at line 357 of `migrate_data`:
`logger.info(f"... {total_migrated/duration:.2f} docs/second")`.  The
division is written with no guard; in Python, division of a number by the
float `0.0` raises `ZeroDivisionError`, and by any non-zero duration it
produces an ordinary finite number.  Durations are modelled as exact
rationals. -/
def reported_throughput (total_migrated : Nat) (duration : ℚ) : Except String ℚ :=
  if duration = 0 then Except.error "ZeroDivisionError"
  else Except.ok ((total_migrated : ℚ) / duration)

/-- A process environment: each variable name maps to its value, or to
none when the variable is unset. -/
abbrev Env := String → Option String

/-- The batch size a run uses.  `main` constructs the migrator with the
literal `batch_size=100` (line 381); no environment variable is consulted. -/
def main_batch_size : Env → Nat := fun _ => 100

/-- The worker count a run uses.  `main` constructs the migrator with the
literal `max_threads=10` (line 381); no environment variable is consulted. -/
def main_max_threads : Env → Nat := fun _ => 10

/-- The maximum document cap a run uses.  `migrate_data` sets the literal
`max_docs = 10000` (line 292); no environment variable is consulted. -/
def migrate_max_docs : Env → Nat := fun _ => 10000

/-- The fixed key fields compared by the verifier
(`verify_migration.py` line 125). -/
def key_fields : List String :=
  ["provider", "subscriptionType", "status", "circleID"]

/-- `verify_sample_data(self)` of `verify_migration.py` (lines 102-146),
with the source collection and target collection passed as document lists.
The source sample is `find_one({})`, modelled as the head of the source
list; an empty source trivially passes (lines 107-109).  Otherwise the
sample's `hashMsisdn` is taken, `_id` is stripped, and the target document
is looked up by `find_one({"hashMsisdn": mongo_hash})`, modelled as the
first target document whose `hashMsisdn` equals the sample's (a missing
field compares as `None`).  If no target document matches, the check fails
(lines 140-142).  Otherwise `_id` is stripped from the target document and
each of the four `key_fields` is compared with `.get` on both sides; the
check passes only when all of them match (lines 125-139).  One subtlety of
the source is kept: the success log line 135 slices `mongo_hash[:16]`, so
when the sample has no `hashMsisdn` (the hash is `None`) that line raises
`TypeError`, the handler at lines 144-146 catches it, and the function
returns `False` even though all fields matched — hence the final
`Option.isSome` test. -/
def verify_sample_data (source target : List Doc) : Bool :=
  match source.head? with
  | none => true
  | some msample0 =>
    let mongoHash := dget msample0 "hashMsisdn"
    let msample := eraseId msample0
    match target.find? (fun d => dget d "hashMsisdn" == mongoHash) with
    | none => false
    | some hsample0 =>
      let hsample := eraseId hsample0
      if key_fields.countP (fun f => dget msample f == dget hsample f) = key_fields.length
      then mongoHash.isSome
      else false

/-! ## Shared helper lemmas -/

/-- The fallback write never counts more documents than the batch holds. -/
lemma write_hcd_batch_le_length (bulkOk : Bool) (docOk : Doc → Bool)
    (batch : List Doc) (bn : Nat) :
    write_hcd_batch bulkOk docOk batch bn ≤ batch.length := by
  unfold write_hcd_batch
  split
  · exact Nat.le_refl _
  · exact List.countP_le_length docOk

/-- Evaluation of the per-batch worker on a non-empty batch. -/
lemma process_batch_with_writer_of_ne_nil (store : Nat → Nat → ReadOutcome)
    (w : List Doc → Nat) (skip sz : Nat)
    (hne : read_mongodb_batch store skip sz ≠ []) :
    process_batch_with_writer store w skip sz =
      (w (read_mongodb_batch store skip sz),
       (read_mongodb_batch store skip sz).length -
         w (read_mongodb_batch store skip sz)) := by
  unfold process_batch_with_writer
  simp [List.isEmpty_iff, hne]

/-- The running-sum accumulator computes the componentwise sums. -/
lemma foldl_pair_sum (l : List (Nat × Nat)) (a b : Nat) :
    l.foldl (fun totals r => (totals.1 + r.1, totals.2 + r.2)) (a, b) =
      (a + (l.map Prod.fst).sum, b + (l.map Prod.snd).sum) := by
  induction l generalizing a b with
  | nil => simp
  | cons x t ih => simp [ih, Nat.add_assoc]

/-! ## C1 — throughput division at run end -/

/-- C1: the claim states that when the run duration rounds to zero the
throughput is reported as undefined/infinite and that the final-statistics
step never performs an unguarded division.  The code at line 357 divides
`total_migrated/duration` with no guard: at duration exactly `0` the
division raises `ZeroDivisionError`, and at a sub-millisecond non-zero
duration (here 1/2000 of a second, which rounds to `0.00`) it reports an
ordinary finite number rather than an undefined/infinite value.  This
theorem evaluates the embedded final-statistics step at both failing
inputs. -/
theorem throughput_division_unguarded :
    reported_throughput 0 0 = Except.error "ZeroDivisionError" ∧
    reported_throughput 5 (1 / 2000) = Except.ok 10000 := by
  constructor
  · rfl
  · norm_num [reported_throughput]

/-! ## C2 and C3 — a batch whose source read raises -/

/-- C2 counterexample: a batch of size 3 whose source read raises
contributes `(0, 0)` to the run totals, not `(0, 3)` as the claim states:
`read_mongodb_batch` swallows the exception and returns the empty list,
which the caller then skips. -/
theorem failed_read_counterexample :
    process_single_batch (fun _ _ => ReadOutcome.fail "connection reset")
        true (fun _ => true) 1 0 3 = (0, 0) ∧
    ((0, 0) : Nat × Nat) ≠ ((0, 3) : Nat × Nat) := by
  constructor
  · rfl
  · decide

/-- C2 (amended): for every batch whose source read raises, the
BatchResult contributed to the run totals is `(0, 0)`: zero migrated and
zero errors. -/
theorem failed_read_contributes_zero_zero (store : Nat → Nat → ReadOutcome)
    (bulkOk : Bool) (docOk : Doc → Bool) (bn skip sz : Nat) (msg : String)
    (hfail : store skip sz = ReadOutcome.fail msg) :
    process_single_batch store bulkOk docOk bn skip sz = (0, 0) := by
  simp [process_single_batch, process_batch_with_writer, read_mongodb_batch, hfail]

/-- Witness for `failed_read_contributes_zero_zero` at a concrete store
whose reads always raise. -/
theorem failed_read_contributes_zero_zero_witness :
    (fun (_ _ : Nat) => ReadOutcome.fail "timeout") 0 5 = ReadOutcome.fail "timeout" ∧
    process_single_batch (fun _ _ => ReadOutcome.fail "timeout")
        false (fun _ => false) 2 0 5 = (0, 0) :=
  ⟨rfl, failed_read_contributes_zero_zero _ false _ 2 0 5 "timeout" rfl⟩

/-- C3: when the source read raises, the reader returns the empty list
(the exception does not pass the `read_mongodb_batch` boundary), and the
caller skips the batch with result `(0, 0)` for every possible writer —
the result does not depend on the writer function at all, so no write is
attempted for it. -/
theorem failed_read_empty_and_skipped (store : Nat → Nat → ReadOutcome)
    (skip limit : Nat) (msg : String)
    (hfail : store skip limit = ReadOutcome.fail msg) :
    read_mongodb_batch store skip limit = [] ∧
    ∀ w : List Doc → Nat, process_batch_with_writer store w skip limit = (0, 0) := by
  constructor
  · simp [read_mongodb_batch, hfail]
  · intro w
    simp [process_batch_with_writer, read_mongodb_batch, hfail]

/-- Witness for `failed_read_empty_and_skipped` at a concrete store whose
reads always raise. -/
theorem failed_read_empty_and_skipped_witness :
    (fun (_ _ : Nat) => ReadOutcome.fail "socket closed") 4 9 =
      ReadOutcome.fail "socket closed" ∧
    (read_mongodb_batch (fun _ _ => ReadOutcome.fail "socket closed") 4 9 = [] ∧
      ∀ w : List Doc → Nat,
        process_batch_with_writer (fun _ _ => ReadOutcome.fail "socket closed")
          w 4 9 = (0, 0)) :=
  ⟨rfl, failed_read_empty_and_skipped _ 4 9 "socket closed" rfl⟩

/-! ## C5 — conservation for successfully read batches -/

/-- C5: for every batch whose read returned a non-empty document list, the
BatchResult returned by the worker satisfies
`migrated_count + error_count = len(batch)`, whatever the write outcomes. -/
theorem batch_result_conservation (store : Nat → Nat → ReadOutcome)
    (bulkOk : Bool) (docOk : Doc → Bool) (bn skip sz : Nat)
    (hne : read_mongodb_batch store skip sz ≠ []) :
    (process_single_batch store bulkOk docOk bn skip sz).1 +
      (process_single_batch store bulkOk docOk bn skip sz).2 =
      (read_mongodb_batch store skip sz).length := by
  have hle := write_hcd_batch_le_length bulkOk docOk
    (read_mongodb_batch store skip sz) bn
  unfold process_single_batch
  rw [process_batch_with_writer_of_ne_nil store _ skip sz hne]
  simp
  omega

/-- Witness for `batch_result_conservation` at a one-document batch whose
bulk insert fails and whose individual insert also fails. -/
theorem batch_result_conservation_witness :
    read_mongodb_batch (fun _ _ => ReadOutcome.ok [[("provider", "VF")]]) 0 1 ≠ [] ∧
    (process_single_batch (fun _ _ => ReadOutcome.ok [[("provider", "VF")]])
          false (fun _ => false) 1 0 1).1 +
        (process_single_batch (fun _ _ => ReadOutcome.ok [[("provider", "VF")]])
          false (fun _ => false) 1 0 1).2 =
      (read_mongodb_batch (fun _ _ => ReadOutcome.ok [[("provider", "VF")]]) 0 1).length :=
  ⟨by decide, batch_result_conservation _ false _ 1 0 1 (by decide)⟩

/-! ## C6 — order-independent aggregation -/

/-- C6: accumulating any multiset of BatchResults as running sums is
order-independent — two completion orders that are permutations of each
other yield the same final `(total_migrated, total_errors)`. -/
theorem aggregation_order_independent (l1 l2 : List (Nat × Nat))
    (hperm : l1.Perm l2) :
    aggregate_results l1 = aggregate_results l2 := by
  unfold aggregate_results
  rw [foldl_pair_sum, foldl_pair_sum,
    (hperm.map Prod.fst).sum_eq, (hperm.map Prod.snd).sum_eq]

/-- Witness for `aggregation_order_independent` on two concrete completion
orders of the same two batch results. -/
theorem aggregation_order_independent_witness :
    ([(1, 2), (3, 4)] : List (Nat × Nat)).Perm [(3, 4), (1, 2)] ∧
    aggregate_results [(1, 2), (3, 4)] = aggregate_results [(3, 4), (1, 2)] :=
  ⟨List.Perm.swap (3, 4) (1, 2) [],
   aggregation_order_independent _ _ (List.Perm.swap (3, 4) (1, 2) [])⟩

/-! ## C7 — bulk-insert fallback -/

/-- C7: when the bulk insert of a batch fails as a whole, the writer falls
back to individual inserts over the batch in order; the migrated count is
the count of individually successful inserts, and a single poison document
(placed anywhere in the batch, with every other document accepted) yields
`migrated_count = len(batch) - 1` — in particular the documents after the
poison one are still inserted. -/
theorem fallback_counts_individual_successes (docOk : Doc → Bool)
    (l1 l2 : List Doc) (bad : Doc) (bn : Nat)
    (hbad : docOk bad = false)
    (h1 : ∀ d ∈ l1, docOk d = true) (h2 : ∀ d ∈ l2, docOk d = true) :
    write_hcd_batch false docOk (l1 ++ bad :: l2) bn =
      (l1 ++ bad :: l2).countP docOk ∧
    write_hcd_batch false docOk (l1 ++ bad :: l2) bn =
      (l1 ++ bad :: l2).length - 1 := by
  have hc : write_hcd_batch false docOk (l1 ++ bad :: l2) bn =
      (l1 ++ bad :: l2).countP docOk := by
    simp [write_hcd_batch]
  refine ⟨hc, ?_⟩
  rw [hc, List.countP_append, List.countP_cons_of_neg _ _ (by simp [hbad]),
    List.countP_eq_length.mpr h1, List.countP_eq_length.mpr h2]
  simp

/-- Witness for `fallback_counts_individual_successes` on a three-document
batch whose middle document is the poison one. -/
theorem fallback_counts_individual_successes_witness :
    ((fun d => dget d "bad" == none) ([("bad", "x")] : Doc) = false) ∧
    (∀ d ∈ ([[("provider", "VF")]] : List Doc),
        (fun d => dget d "bad" == none) d = true) ∧
    (∀ d ∈ ([[("status", "ACTIVE")]] : List Doc),
        (fun d => dget d "bad" == none) d = true) ∧
    (write_hcd_batch false (fun d => dget d "bad" == none)
        ([[("provider", "VF")]] ++ [("bad", "x")] :: [[("status", "ACTIVE")]]) 7 =
        ([[("provider", "VF")]] ++ [("bad", "x")] :: [[("status", "ACTIVE")]]).countP
          (fun d => dget d "bad" == none) ∧
      write_hcd_batch false (fun d => dget d "bad" == none)
        ([[("provider", "VF")]] ++ [("bad", "x")] :: [[("status", "ACTIVE")]]) 7 =
        ([[("provider", "VF")]] ++ [("bad", "x")] :: [[("status", "ACTIVE")]]).length - 1) :=
  ⟨by decide, by decide, by decide,
   fallback_counts_individual_successes _ _ _ _ 7 (by decide) (by decide) (by decide)⟩

/-! ## C8 — run configuration and the environment -/

/-- C8 counterexample: setting the natural candidate environment variables
does not change the batch size, worker count, or document cap the run
uses; the code hardcodes `batch_size=100`, `max_threads=10` (line 381) and
`max_docs = 10000` (line 292). -/
theorem env_ignored_for_batch_config :
    main_batch_size (fun v => if v = "BATCH_SIZE" then some "7" else none) =
      main_batch_size (fun _ => none) ∧
    main_max_threads (fun v => if v = "MAX_THREADS" then some "3" else none) =
      main_max_threads (fun _ => none) ∧
    migrate_max_docs (fun v => if v = "MAX_DOCS" then some "42" else none) =
      migrate_max_docs (fun _ => none) ∧
    main_batch_size (fun _ => none) = 100 ∧
    main_max_threads (fun _ => none) = 10 ∧
    migrate_max_docs (fun _ => none) = 10000 :=
  ⟨rfl, rfl, rfl, rfl, rfl, rfl⟩

/-- C8 (amended): the batch size, worker count and maximum document cap
are hardcoded constants (100, 10 and 10000); they are the same under every
process environment. -/
theorem batch_config_hardcoded (env : Env) :
    main_batch_size env = 100 ∧ main_max_threads env = 10 ∧
      migrate_max_docs env = 10000 :=
  ⟨rfl, rfl, rfl⟩

/-! ## C4 — the batch partition built by the scheduler -/

/-- For a positive document total and batch size there is at least one
scheduled batch. -/
lemma total_batches_pos (m b : Nat) (hm : 0 < m) (hb : 0 < b) :
    0 < total_batches m b := by
  unfold total_batches
  exact Nat.div_pos (by omega) hb

/-- Every scheduled batch index starts strictly inside the document
range. -/
lemma mul_lt_of_lt_total_batches (m b i : Nat) (hm : 0 < m) (hb : 0 < b)
    (hi : i < total_batches m b) : i * b < m := by
  have h1 : (i + 1) * b ≤ total_batches m b * b := Nat.mul_le_mul_right b hi
  have h2 : total_batches m b * b ≤ m + b - 1 := Nat.div_mul_le_self _ _
  rw [Nat.add_mul, Nat.one_mul] at h1
  omega

/-- The scheduled batches cover the whole document range. -/
lemma le_total_batches_mul (m b : Nat) (hb : 0 < b) :
    m ≤ total_batches m b * b := by
  unfold total_batches
  have hdm := Nat.div_add_mod (m + b - 1) b
  have hmod : (m + b - 1) % b < b := Nat.mod_lt _ hb
  rw [Nat.mul_comm]
  omega

/-- With a positive total and batch size, the early-break in the task loop
never fires: every scheduled batch still has documents remaining. -/
lemma batch_tasks_eq_map (m b : Nat) (hm : 0 < m) (hb : 0 < b) :
    batch_tasks m b = (List.range (total_batches m b)).map
      (fun i => (i + 1, i * b, min b (m - i * b))) := by
  unfold batch_tasks
  congr 1
  rw [List.takeWhile_eq_self_iff]
  simp only [List.mem_range, decide_eq_true_eq]
  intro i hi
  exact mul_lt_of_lt_total_batches m b i hm hb hi

/-- The scheduled window sizes, in closed form. -/
lemma task_sizes_eq (m b : Nat) (hm : 0 < m) (hb : 0 < b) :
    task_sizes m b = (List.range (total_batches m b)).map
      (fun i => min b (m - i * b)) := by
  unfold task_sizes
  rw [batch_tasks_eq_map m b hm hb, List.map_map]
  rfl

/-- The scheduled skip offsets, in closed form. -/
lemma task_skips_eq (m b : Nat) (hm : 0 < m) (hb : 0 < b) :
    task_skips m b = (List.range (total_batches m b)).map
      (fun i => i * b) := by
  unfold task_skips
  rw [batch_tasks_eq_map m b hm hb, List.map_map]
  rfl

/-- Partial sums of the window sizes: the first `k` scheduled batches
cover exactly `min (k * b) m` documents. -/
lemma sizes_prefix_sum (m b k : Nat) :
    ((List.range k).map (fun i => min b (m - i * b))).sum = min (k * b) m := by
  induction k with
  | zero => simp
  | succ k ih =>
    rw [List.range_succ, List.map_append, List.sum_append, ih]
    simp only [List.map_cons, List.map_nil, List.sum_cons, List.sum_nil,
      Nat.add_zero]
    rw [Nat.add_mul, Nat.one_mul]
    omega

/-- C4: for every positive document total and batch size, the scheduler
partitions `[0, total_documents)` into contiguous non-overlapping windows:
the sizes sum to exactly the total, each batch's skip equals the sum of
the sizes of all earlier batches, every batch except the last has size
`batch_size`, and the last is truncated to the remainder of the range. -/
theorem batch_partition_correct (m b : Nat) (hm : 0 < m) (hb : 0 < b) :
    (task_sizes m b).sum = m ∧
    (∀ j, (hj : j < (task_skips m b).length) →
      (task_skips m b).get ⟨j, hj⟩ = ((task_sizes m b).take j).sum) ∧
    (∀ j, (hj : j < (task_sizes m b).length) → j + 1 < (task_sizes m b).length →
      (task_sizes m b).get ⟨j, hj⟩ = b) ∧
    (∀ j, (hj : j < (task_sizes m b).length) → j + 1 = (task_sizes m b).length →
      (task_sizes m b).get ⟨j, hj⟩ = m - j * b) := by
  have hsz := task_sizes_eq m b hm hb
  have hsk := task_skips_eq m b hm hb
  have hlen_sz : (task_sizes m b).length = total_batches m b := by
    rw [hsz]; simp
  refine ⟨?_, ?_, ?_, ?_⟩
  · rw [hsz, sizes_prefix_sum]
    exact Nat.min_eq_right (le_total_batches_mul m b hb)
  · intro j hj
    have hjtb : j < total_batches m b := by
      have hj2 := hj
      rw [hsk] at hj2
      simpa using hj2
    simp only [hsk, hsz, List.get_eq_getElem, List.getElem_map,
      List.getElem_range, ← List.map_take, List.take_range]
    rw [Nat.min_eq_left (Nat.le_of_lt hjtb), sizes_prefix_sum]
    exact (Nat.min_eq_left
      (Nat.le_of_lt (mul_lt_of_lt_total_batches m b j hm hb hjtb))).symm
  · intro j hj hlast
    simp only [hsz, List.get_eq_getElem, List.getElem_map, List.getElem_range]
    have hjj : j + 1 < total_batches m b := by rwa [hlen_sz] at hlast
    have h2 : (j + 1) * b < m := mul_lt_of_lt_total_batches m b (j + 1) hm hb hjj
    rw [Nat.add_mul, Nat.one_mul] at h2
    omega
  · intro j hj hlast
    simp only [hsz, List.get_eq_getElem, List.getElem_map, List.getElem_range]
    have hle := le_total_batches_mul m b hb
    have hjj : j + 1 = total_batches m b := by rwa [hlen_sz] at hlast
    rw [← hjj, Nat.add_mul, Nat.one_mul] at hle
    omega

/-- Witness for `batch_partition_correct` at the spec's end-to-end
scenario: 250 documents in batches of 100 give windows 100, 100, 50. -/
theorem batch_partition_correct_witness :
    0 < 250 ∧ 0 < 100 ∧
    ((task_sizes 250 100).sum = 250 ∧
      (∀ j, (hj : j < (task_skips 250 100).length) →
        (task_skips 250 100).get ⟨j, hj⟩ = ((task_sizes 250 100).take j).sum) ∧
      (∀ j, (hj : j < (task_sizes 250 100).length) →
        j + 1 < (task_sizes 250 100).length →
        (task_sizes 250 100).get ⟨j, hj⟩ = 100) ∧
      (∀ j, (hj : j < (task_sizes 250 100).length) →
        j + 1 = (task_sizes 250 100).length →
        (task_sizes 250 100).get ⟨j, hj⟩ = 250 - j * 100)) :=
  ⟨by norm_num, by norm_num,
   batch_partition_correct 250 100 (by norm_num) (by norm_num)⟩

/-! ## C9 and C10 — the verifier sample check -/

/-- Stripping the store-internal identity field does not change any other
field. -/
lemma dget_eraseId (d : Doc) (f : String) (hf : f ≠ "_id") :
    dget (eraseId d) f = dget d f := by
  induction d with
  | nil => rfl
  | cons kv t ih =>
    rcases kv with ⟨k, v⟩
    by_cases hk : k = "_id"
    · subst hk
      have hne : ("_id" == f) = false := by
        simp [Ne.symm hf]
      simp [eraseId, List.filter_cons, dget, hne] at ih ⊢
      exact ih
    · have hkk : (k != "_id") = true := by simp [hk]
      simp only [eraseId, List.filter_cons, hkk, if_pos] at ih ⊢
      by_cases hkf : k == f
      · simp [dget, hkf]
      · simp [dget, hkf, ih]

/-- Every field the verifier compares is distinct from the internal
identity field. -/
lemma key_fields_ne_id : ∀ f ∈ key_fields, f ≠ "_id" := by decide

/-- C9: when the source collection is empty the sample check trivially
passes; otherwise, for a chosen source document that carries its
`hashMsisdn` domain identity (every Document of the data model does), if
a target document is found by that identity then the check passes exactly
when all four key fields (provider, subscriptionType, status, circleID)
agree between the two documents — so a target document differing in any
one of them, e.g. `provider`, makes the check return false. -/
theorem sample_check_iff (source target : List Doc) :
    (source = [] → verify_sample_data source target = true) ∧
    (∀ m hash h, source.head? = some m →
      dget m "hashMsisdn" = some hash →
      target.find? (fun d => dget d "hashMsisdn" == dget m "hashMsisdn") = some h →
      (verify_sample_data source target = true ↔
        ∀ f ∈ key_fields, dget m f = dget h f)) := by
  constructor
  · intro hsrc
    subst hsrc
    rfl
  · intro m hash h hm hhash hfind
    obtain ⟨t, rfl⟩ : ∃ t, source = m :: t := by
      cases source with
      | nil => simp at hm
      | cons a t =>
        simp only [List.head?_cons, Option.some.injEq] at hm
        exact ⟨t, by rw [hm]⟩
    have hcnt : (key_fields.countP
          (fun f => dget (eraseId m) f == dget (eraseId h) f) =
          key_fields.length) ↔ ∀ f ∈ key_fields, dget m f = dget h f := by
      rw [List.countP_eq_length]
      constructor
      · intro hall f hf
        have hb := hall f hf
        rw [dget_eraseId m f (key_fields_ne_id f hf),
          dget_eraseId h f (key_fields_ne_id f hf)] at hb
        exact eq_of_beq hb
      · intro hall f hf
        have hb := hall f hf
        show (dget (eraseId m) f == dget (eraseId h) f) = true
        rw [dget_eraseId m f (key_fields_ne_id f hf),
          dget_eraseId h f (key_fields_ne_id f hf), hb]
        exact beq_self_eq_true _
    have hstep : verify_sample_data (m :: t) target =
        (if key_fields.countP
            (fun f => dget (eraseId m) f == dget (eraseId h) f) =
            key_fields.length
         then (dget m "hashMsisdn").isSome
         else false) := by
      unfold verify_sample_data
      simp only [List.head?_cons, hfind]
    rw [hstep, hhash]
    rcases Decidable.em (key_fields.countP
        (fun f => dget (eraseId m) f == dget (eraseId h) f) =
        key_fields.length) with hc | hc
    · rw [if_pos hc, Option.isSome_some]
      exact ⟨fun _ => hcnt.mp hc, fun _ => rfl⟩
    · rw [if_neg hc]
      exact ⟨fun hfalse => (Bool.false_ne_true hfalse).elim,
        fun hall => absurd (hcnt.mpr hall) hc⟩

/-- Witness for `sample_check_iff` on a one-document source and a matching
one-document target. -/
theorem sample_check_iff_witness :
    ([[("hashMsisdn", "H1"), ("provider", "VF")]] : List Doc).head? =
      some [("hashMsisdn", "H1"), ("provider", "VF")] ∧
    dget [("hashMsisdn", "H1"), ("provider", "VF")] "hashMsisdn" = some "H1" ∧
    ([[("hashMsisdn", "H1"), ("provider", "VF")]] : List Doc).find?
        (fun d => dget d "hashMsisdn" ==
          dget [("hashMsisdn", "H1"), ("provider", "VF")] "hashMsisdn") =
      some [("hashMsisdn", "H1"), ("provider", "VF")] ∧
    (verify_sample_data [[("hashMsisdn", "H1"), ("provider", "VF")]]
        [[("hashMsisdn", "H1"), ("provider", "VF")]] = true ↔
      ∀ f ∈ key_fields,
        dget [("hashMsisdn", "H1"), ("provider", "VF")] f =
          dget [("hashMsisdn", "H1"), ("provider", "VF")] f) :=
  ⟨by decide, by decide, by decide,
   (sample_check_iff [[("hashMsisdn", "H1"), ("provider", "VF")]]
      [[("hashMsisdn", "H1"), ("provider", "VF")]]).2
     [("hashMsisdn", "H1"), ("provider", "VF")] "H1"
     [("hashMsisdn", "H1"), ("provider", "VF")]
     (by decide) (by decide) (by decide)⟩

/-- C10: when the source collection holds at least one document but no
target document carries the same `hashMsisdn`, the sample check fails
rather than trivially passing. -/
theorem sample_check_fails_without_counterpart (source target : List Doc)
    (m : Doc) (h1 : source.head? = some m)
    (h2 : target.find?
      (fun d => dget d "hashMsisdn" == dget m "hashMsisdn") = none) :
    verify_sample_data source target = false := by
  cases source with
  | nil => simp at h1
  | cons a t =>
    simp only [List.head?_cons, Option.some.injEq] at h1
    subst h1
    unfold verify_sample_data
    simp only [List.head?_cons, h2]

/-- Witness for `sample_check_fails_without_counterpart` on a source whose
only document has no counterpart in the target. -/
theorem sample_check_fails_without_counterpart_witness :
    ([[("hashMsisdn", "H1")]] : List Doc).head? = some [("hashMsisdn", "H1")] ∧
    ([[("hashMsisdn", "H2")]] : List Doc).find?
        (fun d => dget d "hashMsisdn" == dget [("hashMsisdn", "H1")] "hashMsisdn") =
      none ∧
    verify_sample_data [[("hashMsisdn", "H1")]] [[("hashMsisdn", "H2")]] = false :=
  ⟨by decide, by decide,
   sample_check_fails_without_counterpart _ _ [("hashMsisdn", "H1")]
     (by decide) (by decide)⟩

end Migration
